import Mathlib

/-!
Shallow embedding of the GameUp Challenge Engine
(src/.../src/components/Button.js, ChallengeScreen) and of the XP part of
updateUserStats (src/utils/gameUtils.js).

The component is a React function component whose state lives in useState
hooks and useRef cells, and whose timers are JS setTimeout/setInterval
handles.  The embedding represents one mounted ChallengeScreen as a record
GameState:

* every useState/useRef cell of the source becomes a field with its source
  name;
* the JS timer facility becomes an explicit list of pending timers, each
  with a unique handle (tid), an absolute due instant, its purpose
  (TimerKind) and its repeat period; clearTimeout/clearInterval on a ref
  removes the timer whose handle the ref holds;
* setTimeout calls whose handle the source never stores (the 3-second
  target-removal timeout inside spawnTarget and the two 1500 ms delays
  inside handleColorPress) get TimerKinds of their own but no ref,
  exactly as in the source;
* Math.random() and Date.now() become an entropy stream and an explicit
  `now` clock; the random target position is taken directly from the
  entropy stream (no claim depends on the position arithmetic);
* the three useEffect hooks become reconciliation functions that run after
  every event whenever their dependency tuple changed, first running the
  previous cleanup (with the values it captured at the previous effect
  run, i.e. the old state's values, since every captured value is itself
  a dependency) and then the effect body;
* the Alert.alert terminal messages become an `outcomes` log and the
  updateUserStats remote call becomes a `reporterCalls` log of the scores
  submitted; firebase_auth.currentUser becomes the environment flag
  `userPresent`.
-/

inductive Mode
  | target
  | color
deriving DecidableEq, Repr

inductive CircleColor
  | red
  | green
deriving DecidableEq, Repr

/-- A spawned target: unique id plus the random position drawn at spawn
time (the Animated scale value of the source is render-only and omitted). -/
structure Target where
  id : Nat
  x : Nat
  y : Nat
deriving DecidableEq, Repr

/-- The purpose of a scheduled callback.  The first four are the timers the
source tracks through refs; the last three are the setTimeout calls whose
handles the source never stores. -/
inductive TimerKind
  | countdown
  | spawn
  | targetExpiry (targetId : Nat)
  | arm
  | miss
  | nextRound (newCount : Nat)
  | endDelay
deriving DecidableEq, Repr

/-- One pending JS timer: handle, purpose, absolute due instant, and the
repeat period for setInterval timers. -/
structure Timer where
  tid : Nat
  kind : TimerKind
  due : Nat
  repeatEvery : Option Nat
deriving DecidableEq, Repr

/-- Which terminal Alert.alert the screen showed. -/
inductive Outcome
  | earlyTap
  | missed
  | colorComplete
  | targetComplete
deriving DecidableEq, Repr

/-- The mounted ChallengeScreen: its useState cells, its useRef cells, and
the modelled environment (clock, pending timers, entropy, signed-in user,
and the log of remote stats submissions and terminal alerts). -/
structure GameState where
  challengeType : Mode
  -- target tapping game state
  score : Nat
  timeLeft : Nat
  targets : List Target
  -- color reaction game state
  circleColor : CircleColor
  reactionTime : Option Nat
  roundsCompleted : Nat
  bestReactionTime : Option Nat
  greenTime : Option Nat
  isWaiting : Bool
  colorScore : Nat
  -- common game state
  isPlaying : Bool
  isPaused : Bool
  gameStarted : Bool
  -- refs holding timer handles
  timerRef : Option Nat
  targetSpawnTimerRef : Option Nat
  targetIdRef : Nat
  colorTimerRef : Option Nat
  waitTimerRef : Option Nat
  roundInProgress : Bool
  -- environment
  userPresent : Bool
  now : Nat
  pending : List Timer
  nextTid : Nat
  entropy : List Nat
  reporterCalls : List Nat
  outcomes : List Outcome
deriving DecidableEq, Repr

-- Constants of the source file.
def GAME_DURATION : Nat := 30
def MIN_WAIT_TIME : Nat := 1000
def MAX_WAIT_TIME : Nat := 4000
def MAX_COLOR_ROUNDS : Nat := 10
def COLOR_SCORE_XP_DIVISOR : Nat := 10
-- Constant of gameUtils.js.
def XP_PER_SCORE_POINT : Nat := 10

/-- calculateReactionScore of the source.  Reaction times are the
difference of two Date.now() readings, hence non-negative integers. -/
def calculateReactionScore (reactionTimeMs : Nat) : Nat :=
  if 1000 ≤ reactionTimeMs then 0
  else max 0 ((1000 - reactionTimeMs) / 10)

/-- xpGained as computed inside updateUserStats of gameUtils.js. -/
def xpGained (score : Nat) : Nat :=
  score * XP_PER_SCORE_POINT

-- Entropy stream access: one Math.random() draw.
def randHead (s : GameState) : Nat := s.entropy.headD 0
def randTail (s : GameState) : GameState := { s with entropy := s.entropy.tail }

/-- Arm a new timer.  Its handle is the state's nextTid. -/
def schedule (s : GameState) (k : TimerKind) (delay : Nat) (rep : Option Nat) : GameState :=
  { s with pending := s.pending ++ [⟨s.nextTid, k, s.now + delay, rep⟩],
           nextTid := s.nextTid + 1 }

def removeTimer (t : Nat) (l : List Timer) : List Timer :=
  l.filter (fun tm => tm.tid ≠ t)

/-- Cancel the timer a ref handle points at (clearTimeout/clearInterval);
a null handle cancels nothing.  Handles start at 1, as JS timer ids are
truthy. -/
def clearHandle (h : Option Nat) (l : List Timer) : List Timer :=
  match h with
  | none => l
  | some t => removeTimer t l

-- clearIntervalRef/clearTimeoutRef of the source, one per ref field:
-- cancel the timer whose handle the ref holds and null the ref.
def clearTimerRef (s : GameState) : GameState :=
  { s with timerRef := none, pending := clearHandle s.timerRef s.pending }

def clearSpawnRef (s : GameState) : GameState :=
  { s with targetSpawnTimerRef := none,
           pending := clearHandle s.targetSpawnTimerRef s.pending }

def clearWaitRef (s : GameState) : GameState :=
  { s with waitTimerRef := none, pending := clearHandle s.waitTimerRef s.pending }

def clearColorRef (s : GameState) : GameState :=
  { s with colorTimerRef := none, pending := clearHandle s.colorTimerRef s.pending }

/-- spawnTarget of the source: create a target with the next unique id and
a random position, append it, and schedule its removal 3000 ms from now.
The removal setTimeout handle is never stored anywhere, exactly as in the
source. -/
def spawnTarget (s : GameState) : GameState :=
  let rx := randHead s
  let s := randTail s
  let ry := randHead s
  let s := randTail s
  let newId := s.targetIdRef
  let s := { s with targetIdRef := s.targetIdRef + 1,
                    targets := s.targets ++ [⟨newId, rx, ry⟩] }
  schedule s (TimerKind.targetExpiry newId) 3000 none

/-- handleTargetPress of the source: increment the score and filter the
target out.  The source performs no membership check before incrementing. -/
def handleTargetPress (s : GameState) (targetId : Nat) : GameState :=
  { s with score := s.score + 1,
           targets := s.targets.filter (fun t => t.id ≠ targetId) }

/-- startColorRound of the source: mark the round in progress, show red,
and schedule the arm ("turn green") timeout after a random wait in
[MIN_WAIT_TIME, MAX_WAIT_TIME), storing its handle in waitTimerRef. -/
def startColorRound (s : GameState) : GameState :=
  let s := { s with roundInProgress := true, isWaiting := true,
                    circleColor := CircleColor.red, reactionTime := none }
  let r := randHead s
  let s := randTail s
  let waitTime := MIN_WAIT_TIME + r % (MAX_WAIT_TIME - MIN_WAIT_TIME)
  let t := s.nextTid
  let s := schedule s TimerKind.arm waitTime none
  { s with waitTimerRef := some t }

/-- The callback of the wait timer inside startColorRound: turn the circle
green, record greenTime, and schedule the 3000 ms auto-fail timer, storing
its handle in colorTimerRef. -/
def armFire (s : GameState) : GameState :=
  let s := { s with circleColor := CircleColor.green, greenTime := some s.now,
                    isWaiting := false }
  let t := s.nextTid
  let s := schedule s TimerKind.miss 3000 none
  { s with colorTimerRef := some t }

/-- handleColorFail of the source (early tap): stop the game, cancel both
color timers, and — when any score was accumulated and a user is signed
in — submit floor(colorScore / COLOR_SCORE_XP_DIVISOR) to updateUserStats.
Every branch shows the "clicked too early" alert. -/
def handleColorFail (s : GameState) : GameState :=
  let s := { s with isPlaying := false, gameStarted := false }
  let s := clearWaitRef s
  let s := clearColorRef s
  let s := { s with roundInProgress := false }
  let s :=
    if 0 < s.colorScore ∧ s.userPresent = true then
      { s with reporterCalls := s.reporterCalls ++ [s.colorScore / COLOR_SCORE_XP_DIVISOR] }
    else s
  { s with outcomes := s.outcomes ++ [Outcome.earlyTap] }

/-- handleColorMiss of the source (auto-fail after 3 s of green): stop the
game, cancel the wait timer (the miss timer itself has just fired), and
submit the normalized score as in handleColorFail.  Every branch shows the
"took too long" alert. -/
def handleColorMiss (s : GameState) : GameState :=
  let s := { s with isPlaying := false, gameStarted := false }
  let s := clearWaitRef s
  let s := { s with roundInProgress := false }
  let s :=
    if 0 < s.colorScore ∧ s.userPresent = true then
      { s with reporterCalls := s.reporterCalls ++ [s.colorScore / COLOR_SCORE_XP_DIVISOR] }
    else s
  { s with outcomes := s.outcomes ++ [Outcome.missed] }

/-- resetColorGame of the source. -/
def resetColorGame (s : GameState) : GameState :=
  { s with circleColor := CircleColor.red, reactionTime := none,
           roundsCompleted := 0, bestReactionTime := none, greenTime := none,
           isWaiting := false, gameStarted := false, colorScore := 0,
           roundInProgress := false }

/-- endColorGame of the source: stop the game, cancel both color timers,
and either submit the normalized score (signed-in user with a positive
score, showing the completion alert) or just reset. -/
def endColorGame (s : GameState) : GameState :=
  let s := { s with isPlaying := false, isPaused := false }
  let s := clearWaitRef s
  let s := clearColorRef s
  let s := { s with roundInProgress := false }
  if s.userPresent = true ∧ 0 < s.colorScore then
    { s with reporterCalls := s.reporterCalls ++ [s.colorScore / COLOR_SCORE_XP_DIVISOR],
             outcomes := s.outcomes ++ [Outcome.colorComplete] }
  else
    resetColorGame s

/-- handleColorPress of the source: red means an early tap; green with a
recorded greenTime scores the round, updates the best time, cancels the
auto-fail timer, and schedules either the end of the game or the next
round after 1500 ms.  Neither 1500 ms setTimeout handle is stored, and the
limit branch never writes roundsCompleted, exactly as in the source. -/
def handleColorPress (s : GameState) : GameState :=
  if s.circleColor = CircleColor.red then
    handleColorFail s
  else
    match s.greenTime with
    | none => s
    | some g =>
      let reaction := s.now - g
      let s := { s with reactionTime := some reaction }
      let pointsEarned := calculateReactionScore reaction
      let s := { s with colorScore := s.colorScore + pointsEarned }
      let newBest :=
        match s.bestReactionTime with
        | none => some reaction
        | some b => if reaction < b then some reaction else some b
      let s := { s with bestReactionTime := newBest }
      let s := clearColorRef s
      let newRoundCount := s.roundsCompleted + 1
      if MAX_COLOR_ROUNDS ≤ newRoundCount then
        schedule s TimerKind.endDelay 1500 none
      else
        schedule s (TimerKind.nextRound newRoundCount) 1500 none

/-- The callback of the 1500 ms next-round setTimeout in handleColorPress. -/
def nextRoundFire (newCount : Nat) (s : GameState) : GameState :=
  { s with reactionTime := none, roundInProgress := false,
           roundsCompleted := newCount }

/-- startGame of the source: reset the active mode's sub-state and set the
game playing.  The source performs no lifecycle check whatsoever. -/
def startGame (s : GameState) : GameState :=
  let s :=
    if s.challengeType = Mode.target then
      { s with score := 0, timeLeft := GAME_DURATION, targets := [] }
    else
      { s with circleColor := CircleColor.red, reactionTime := none,
               roundsCompleted := 0, bestReactionTime := none,
               greenTime := none, isWaiting := false, colorScore := 0,
               roundInProgress := false }
  { s with isPlaying := true, isPaused := false, gameStarted := true }

/-- pauseGame of the source: set isPaused; in color mode also cancel the
wait and auto-fail timers.  In target mode no timer is touched here (the
intervals are cleared by the effects reacting to isPaused). -/
def pauseGame (s : GameState) : GameState :=
  let s := { s with isPaused := true }
  if s.challengeType = Mode.color then
    clearColorRef (clearWaitRef s)
  else s

/-- resumeGame of the source. -/
def resumeGame (s : GameState) : GameState :=
  { s with isPaused := false }

/-- endGame of the source: stop, clear the targets, cancel both interval
timers, and — for a signed-in user in target mode with a positive score —
submit the raw score to updateUserStats and show the completion alert. -/
def endGame (s : GameState) : GameState :=
  let s := { s with isPlaying := false, isPaused := false, targets := [] }
  let s := clearTimerRef s
  let s := clearSpawnRef s
  if s.userPresent = true then
    if s.challengeType = Mode.target ∧ 0 < s.score then
      { s with reporterCalls := s.reporterCalls ++ [s.score],
               outcomes := s.outcomes ++ [Outcome.targetComplete] }
    else
      { s with gameStarted := false }
  else
    { s with gameStarted := false }

-- Dependency tuples of the three useEffect hooks.
def depsCountdown (s : GameState) : Mode × Bool × Bool × Nat :=
  (s.challengeType, s.isPlaying, s.isPaused, s.timeLeft)
def depsSpawn (s : GameState) : Mode × Bool × Bool :=
  (s.challengeType, s.isPlaying, s.isPaused)
def depsColor (s : GameState) : Mode × Bool × Bool × Nat :=
  (s.challengeType, s.isPlaying, s.isPaused, s.roundsCompleted)

/-- Re-run of the countdown useEffect: the previous cleanup clears the
interval unconditionally, then the body re-arms it when the game is
actively playing in target mode with time left. -/
def reconcileCountdown (s : GameState) : GameState :=
  let s := clearTimerRef s
  if s.challengeType = Mode.target ∧ s.isPlaying = true ∧ s.isPaused = false ∧
      0 < s.timeLeft then
    let t := s.nextTid
    let s := schedule s TimerKind.countdown 1000 (some 1000)
    { s with timerRef := some t }
  else s

/-- Re-run of the spawner useEffect: cleanup clears the interval, then the
body spawns one target immediately and re-arms the 1500 ms interval when
actively playing in target mode. -/
def reconcileSpawn (s : GameState) : GameState :=
  let s := clearSpawnRef s
  if s.challengeType = Mode.target ∧ s.isPlaying = true ∧ s.isPaused = false then
    let s := spawnTarget s
    let t := s.nextTid
    let s := schedule s TimerKind.spawn 1500 (some 1500)
    { s with targetSpawnTimerRef := some t }
  else s

/-- Re-run of the color-round useEffect.  The previous cleanup clears the
color timers only when the values it captured (the old state's, since
isPlaying and isPaused are dependencies) said not-playing-or-paused; the
body starts a round when actively playing in color mode with no round in
progress. -/
def reconcileColor (old : GameState) (s : GameState) : GameState :=
  let s :=
    if old.isPlaying = false ∨ old.isPaused = true then
      { clearColorRef (clearWaitRef s) with roundInProgress := false }
    else s
  if s.challengeType = Mode.color ∧ s.isPlaying = true ∧ s.isPaused = false ∧
      s.roundInProgress = false then
    startColorRound s
  else s

/-- Run the three effects in source order, each only when its dependency
tuple changed between the old and the new render (no reconciliation
changes a dependency field, so each effect compares the same two
renders). -/
def sync (old s : GameState) : GameState :=
  let s1 := if depsCountdown old ≠ depsCountdown s then reconcileCountdown s else s
  let s2 := if depsSpawn old ≠ depsSpawn s then reconcileSpawn s1 else s1
  if depsColor old ≠ depsColor s then reconcileColor old s2 else s2

/-- The callback body of each timer kind, as written in the source. -/
def fireCallback (tm : Timer) (s : GameState) : GameState :=
  match tm.kind with
  | TimerKind.countdown =>
      if s.timeLeft ≤ 1 then
        let s := endGame s
        { s with timeLeft := 0 }
      else
        { s with timeLeft := s.timeLeft - 1 }
  | TimerKind.spawn => spawnTarget s
  | TimerKind.targetExpiry i =>
      { s with targets := s.targets.filter (fun t => t.id ≠ i) }
  | TimerKind.arm => armFire s
  | TimerKind.miss => handleColorMiss s
  | TimerKind.nextRound n => nextRoundFire n s
  | TimerKind.endDelay => endColorGame s

/-- Fire the pending timer with the given handle: advance the clock to its
due instant, re-arm it if it is an interval, and run its callback.  A
handle that is no longer pending (cleared, or already fired) does
nothing. -/
def fireTimer (s : GameState) (t : Nat) : GameState :=
  match s.pending.find? (fun tm => tm.tid = t) with
  | none => s
  | some tm =>
    let remaining := removeTimer tm.tid s.pending
    let s := { s with now := max s.now tm.due,
                      pending := match tm.repeatEvery with
                        | none => remaining
                        | some p => remaining ++ [{ tm with due := tm.due + p }] }
    fireCallback tm s

/-- The events one mounted screen can process: user actions and timer
expirations.  Target taps and circle taps are only routed in the mode
whose view renders them. -/
inductive Event
  | start
  | pause
  | resume
  | pressTarget (targetId : Nat)
  | pressCircle
  | fire (t : Nat)
deriving DecidableEq, Repr

def applyEvent (s : GameState) (e : Event) : GameState :=
  match e with
  | Event.start => startGame s
  | Event.pause => pauseGame s
  | Event.resume => resumeGame s
  | Event.pressTarget i =>
      if s.challengeType = Mode.target then handleTargetPress s i else s
  | Event.pressCircle =>
      if s.challengeType = Mode.color then handleColorPress s else s
  | Event.fire t => fireTimer s t

/-- One event processed to completion, followed by the effect re-runs its
state changes trigger. -/
def step (s : GameState) (e : Event) : GameState :=
  sync s (applyEvent s e)

/-- The Leave branch of handleBack: stop the game, drop the targets, and
clear the four tracked timer refs before navigating away. -/
def leaveGame (s : GameState) : GameState :=
  let s := { s with isPlaying := false, targets := [], gameStarted := false }
  clearColorRef (clearWaitRef (clearSpawnRef (clearTimerRef s)))

/-- The effect cleanups that React runs when the screen unmounts.  At that
point the captured values are the current ones (the last effect run saw
this state). -/
def unmount (s : GameState) : GameState :=
  let s := clearTimerRef s
  let s := clearSpawnRef s
  if s.isPlaying = false ∨ s.isPaused = true then
    { clearColorRef (clearWaitRef s) with roundInProgress := false }
  else s

/-- Navigating away from a live game: the Leave branch, the effect re-runs
its state changes trigger, then the unmount cleanups. -/
def teardown (s : GameState) : GameState :=
  unmount (sync s (leaveGame s))

/-- A freshly mounted ChallengeScreen: the useState initial values of the
source, an empty timer table, and the chosen mode and signed-in flag. -/
def mkInit (mode : Mode) (user : Bool) : GameState :=
  { challengeType := mode
    score := 0
    timeLeft := GAME_DURATION
    targets := []
    circleColor := CircleColor.red
    reactionTime := none
    roundsCompleted := 0
    bestReactionTime := none
    greenTime := none
    isWaiting := false
    colorScore := 0
    isPlaying := false
    isPaused := false
    gameStarted := false
    timerRef := none
    targetSpawnTimerRef := none
    targetIdRef := 0
    colorTimerRef := none
    waitTimerRef := none
    roundInProgress := false
    userPresent := user
    now := 0
    pending := []
    nextTid := 1
    entropy := []
    reporterCalls := []
    outcomes := [] }

/-- A timer kind whose setTimeout handle the source never stores in a ref:
the 3-second target-removal timeout and the two 1500 ms delays of
handleColorPress.  No clearTimeout in the source can ever reach these. -/
def isUntracked : TimerKind → Bool
  | TimerKind.countdown => false
  | TimerKind.spawn => false
  | TimerKind.arm => false
  | TimerKind.miss => false
  | TimerKind.targetExpiry _ => true
  | TimerKind.nextRound _ => true
  | TimerKind.endDelay => true

/-- Every pending ref-managed timer (countdown, spawn, arm, miss) is the
one its ref currently holds, so clearing the refs cancels all of them. -/
abbrev TrackedTids (s : GameState) : Prop :=
  (∀ tm ∈ s.pending, tm.kind = TimerKind.countdown → s.timerRef = some tm.tid) ∧
  (∀ tm ∈ s.pending, tm.kind = TimerKind.spawn → s.targetSpawnTimerRef = some tm.tid) ∧
  (∀ tm ∈ s.pending, tm.kind = TimerKind.arm → s.waitTimerRef = some tm.tid) ∧
  (∀ tm ∈ s.pending, tm.kind = TimerKind.miss → s.colorTimerRef = some tm.tid)

/-- A paused session whose ref-managed pending timers are consistent, the
shape pauseGame leaves a TrackedTids session in. -/
abbrev TrackedPaused (s : GameState) : Prop :=
  TrackedTids s ∧ s.isPaused = true

/-- The timer tm is pending in the paused session u and is not the timer
any ref currently holds, so no clearTimeout the engine can still run will
cancel it. -/
abbrev PendSurvives (tm : Timer) (u : GameState) : Prop :=
  u.isPaused = true ∧ tm ∈ u.pending ∧
  u.timerRef ≠ some tm.tid ∧ u.targetSpawnTimerRef ≠ some tm.tid ∧
  u.waitTimerRef ≠ some tm.tid ∧ u.colorTimerRef ≠ some tm.tid

-- Concrete runs of the machine, used by counterexamples and witnesses.

/-- A target-tapping session right after Start Challenge: the countdown
interval (handle 1), the first target's 3 s removal timeout (handle 2) and
the 1500 ms spawn interval (handle 3) are pending. -/
def tgStarted : GameState := step (mkInit Mode.target true) Event.start

/-- The same session immediately paused: the effects cleared both
intervals, but the target's removal timeout is untouched. -/
def tgPaused : GameState := step tgStarted Event.pause

/-- The paused session after navigating away. -/
def tgGone : GameState := teardown tgPaused

/-- The paused session once the first target's removal timeout fires. -/
def tgExpired : GameState := step tgPaused (Event.fire 2)

/-- A color-reaction session right after Start Challenge: the arm timer
(handle 1) is pending and the circle is red. -/
def crStarted : GameState := step (mkInit Mode.color true) Event.start

/-- A full successful color-reaction session: for each of the ten rounds,
the arm timer fires, the user taps the green circle, and (for the first
nine) the 1500 ms next-round delay fires; the tenth tap schedules the
1500 ms end-of-game delay instead, which then fires. -/
def crEvents : List Event :=
  [Event.start] ++
    ((List.range 9).map (fun k =>
      [Event.fire (3 * k + 1), Event.pressCircle, Event.fire (3 * k + 3)])).flatten ++
    [Event.fire 28, Event.pressCircle, Event.fire 30]

def crFinal : GameState := crEvents.foldl step (mkInit Mode.color true)

/-- A target-tapping session mid-game with five targets already hit. -/
def tgMid : GameState :=
  { mkInit Mode.target true with score := 5, isPlaying := true, gameStarted := true }

/-- A running target-tapping session used to probe startGame's missing
lifecycle check. -/
def tgRunning : GameState :=
  { mkInit Mode.target true with
      score := 7, timeLeft := 12, isPlaying := true, gameStarted := true }

/-- A target session with one live target, for the tap/no-op claim. -/
def tgOneTarget : GameState :=
  { mkInit Mode.target true with
      targets := [⟨0, 5, 7⟩], targetIdRef := 1, isPlaying := true, gameStarted := true }

/-- A color session about to end with accumulated score 123. -/
def crScored : GameState :=
  { mkInit Mode.color true with
      colorScore := 123, isPlaying := true, gameStarted := true }

/-- A color session on its tenth round, circle green, 900 points in. -/
def crNinth : GameState :=
  { mkInit Mode.color true with
      circleColor := CircleColor.green, greenTime := some 1000,
      roundsCompleted := 9, colorScore := 900, now := 1100,
      isPlaying := true, gameStarted := true, roundInProgress := true }

-- Membership lemmas for the timer table.

lemma mem_removeTimer {tm : Timer} {t : Nat} {l : List Timer} :
    tm ∈ removeTimer t l ↔ tm ∈ l ∧ tm.tid ≠ t := by
  simp [removeTimer, List.mem_filter]

lemma mem_clearHandle {tm : Timer} {h : Option Nat} {l : List Timer} :
    tm ∈ clearHandle h l ↔ tm ∈ l ∧ h ≠ some tm.tid := by
  cases h with
  | none => simp [clearHandle]
  | some t =>
      simp only [clearHandle, mem_removeTimer, ne_eq, Option.some.injEq]
      constructor
      · rintro ⟨hm, hne⟩
        exact ⟨hm, fun he => hne he.symm⟩
      · rintro ⟨hm, hne⟩
        exact ⟨hm, fun he => hne he.symm⟩

/-- The scoring formula value is bounded by 100. -/
lemma reaction_div_le (l : Nat) : (1000 - l) / 10 ≤ 100 := by
  have h1 : (1000 - l) / 10 ≤ 1000 / 10 := Nat.div_le_div_right (by omega)
  omega

/-- Below the 1000 ms cap the scoring function is the floored formula. -/
lemma calcScore_eq_of_lt {l : Nat} (h : l < 1000) :
    calculateReactionScore l = (1000 - l) / 10 := by
  unfold calculateReactionScore
  rw [if_neg (by omega)]
  simp

/-- C3 counterexample: a latency of 999 ms is below 1000 yet scores 0, so
the clause that the sub-second branch yields an integer in (0,100] is
false on the code (every latency in 991..999 scores 0). -/
theorem c3_score_range_counterexample :
    999 < 1000 ∧ calculateReactionScore 999 = 0 ∧
    ¬ 0 < calculateReactionScore 999 := by decide

/-- C3 amended: the scoring function returns 0 for latencies of 1000 ms or
more and otherwise floor((1000 - latencyMs) / 10), an integer in [0,100]
(it is 0, not positive, for latencies 991..999); the result always lies in
[0,100]. -/
theorem c3_score_range_amended : ∀ l : Nat,
    (1000 ≤ l → calculateReactionScore l = 0) ∧
    (l < 1000 → calculateReactionScore l = (1000 - l) / 10) ∧
    calculateReactionScore l ≤ 100 := by
  intro l
  by_cases h : 1000 ≤ l
  · refine ⟨fun _ => ?_, fun hlt => ?_, ?_⟩
    · simp [calculateReactionScore, h]
    · omega
    · simp [calculateReactionScore, h]
  · refine ⟨fun hc => absurd hc h, fun hlt => calcScore_eq_of_lt hlt, ?_⟩
    rw [calcScore_eq_of_lt (by omega)]
    exact reaction_div_le l

/-- C3 witness: the amended statement evaluated at latencies 1200 and 42. -/
theorem c3_score_range_witness :
    calculateReactionScore 1200 = 0 ∧
    calculateReactionScore 42 = (1000 - 42) / 10 ∧
    calculateReactionScore 42 ≤ 100 :=
  ⟨(c3_score_range_amended 1200).1 (by decide),
   (c3_score_range_amended 42).2.1 (by decide),
   (c3_score_range_amended 42).2.2⟩

/-- C4 counterexample: the code scores a 950 ms reaction as
floor((1000 - 950) / 10) = 5, not the 4 the spec fixes. -/
theorem c4_fixed_points_counterexample :
    calculateReactionScore 950 = 5 ∧ calculateReactionScore 950 ≠ 4 := by decide

/-- C4 amended: the four fixed point values with score(950) corrected to 5:
score(950) = 5, score(0) = 100, score(1000) = 0, score(1500) = 0. -/
theorem c4_fixed_points_amended :
    calculateReactionScore 950 = 5 ∧ calculateReactionScore 0 = 100 ∧
    calculateReactionScore 1000 = 0 ∧ calculateReactionScore 1500 = 0 := by decide

/-- C5 counterexample: pressing the same target id twice increments the
score twice — handleTargetPress has no membership check, so the second
tap is not a no-op (the score ends at 2, not 1). -/
theorem c5_second_tap_counterexample :
    (handleTargetPress tgOneTarget 0).score = 1 ∧
    (handleTargetPress tgOneTarget 0).targets = [] ∧
    (handleTargetPress (handleTargetPress tgOneTarget 0) 0).score = 2 := by decide

/-- C5 amended: a tap increments the score by exactly 1 and removes the id
from the live set, and a repeated removal (the expiry filter) of an
already-removed id leaves the target set unchanged; but a second tap event
on the same id increments the score again — the handler never checks
membership. -/
theorem c5_second_tap_amended : ∀ (s : GameState) (i : Nat),
    (handleTargetPress s i).score = s.score + 1 ∧
    (∀ t ∈ (handleTargetPress s i).targets, t.id ≠ i) ∧
    (handleTargetPress (handleTargetPress s i) i).score = s.score + 2 ∧
    (handleTargetPress s i).targets.filter (fun t => t.id ≠ i)
      = (handleTargetPress s i).targets := by
  intro s i
  refine ⟨rfl, ?_, rfl, ?_⟩
  · intro t ht
    simp only [handleTargetPress, List.mem_filter, decide_eq_true_eq] at ht
    simpa using ht.2
  · apply List.filter_eq_self.mpr
    intro t ht
    simp only [handleTargetPress] at ht
    exact (List.mem_filter.mp ht).2

/-- C5 witness: the amended statement at the one-target session and id 0. -/
theorem c5_second_tap_witness :
    (handleTargetPress tgOneTarget 0).score = tgOneTarget.score + 1 ∧
    (handleTargetPress (handleTargetPress tgOneTarget 0) 0).score = tgOneTarget.score + 2 ∧
    (handleTargetPress tgOneTarget 0).targets.filter (fun t => t.id ≠ 0)
      = (handleTargetPress tgOneTarget 0).targets :=
  ⟨(c5_second_tap_amended tgOneTarget 0).1,
   (c5_second_tap_amended tgOneTarget 0).2.2.1,
   (c5_second_tap_amended tgOneTarget 0).2.2.2⟩

/-- C9 counterexample: from a Running session (isPlaying, 7 points, 12 s
left) startGame does not fail with any InvalidState signal — it silently
resets the sub-state and keeps the session Running, changing the state
rather than rejecting the call. -/
theorem c9_start_counterexample :
    tgRunning.isPlaying = true ∧ tgRunning.score = 7 ∧
    (startGame tgRunning).score = 0 ∧
    (startGame tgRunning).timeLeft = GAME_DURATION ∧
    (startGame tgRunning).isPlaying = true ∧
    startGame tgRunning ≠ tgRunning := by decide

/-- C9 amended: startGame performs no lifecycle check at all: called in
any state (Idle, Running, Paused or Ended) it resets the active mode's
sub-state to its initial values and transitions to Running; no
InvalidState signal exists. -/
theorem c9_start_amended : ∀ s : GameState,
    (startGame s).isPlaying = true ∧ (startGame s).isPaused = false ∧
    (startGame s).gameStarted = true ∧
    (s.challengeType = Mode.target →
      (startGame s).score = 0 ∧ (startGame s).timeLeft = GAME_DURATION ∧
      (startGame s).targets = []) ∧
    (s.challengeType = Mode.color →
      (startGame s).colorScore = 0 ∧ (startGame s).roundsCompleted = 0 ∧
      (startGame s).circleColor = CircleColor.red ∧
      (startGame s).roundInProgress = false) := by
  intro s
  by_cases h : s.challengeType = Mode.target <;>
    simp [startGame, h]

/-- C9 witness: the amended statement at the running target session. -/
theorem c9_start_witness :
    (startGame tgRunning).isPlaying = true ∧ (startGame tgRunning).score = 0 :=
  ⟨(c9_start_amended tgRunning).1,
   ((c9_start_amended tgRunning).2.2.2.1 rfl).1⟩

/-- C2 counterexample: ending the mid-game target session (5 points,
signed-in user) twice submits the score to the stats collaborator twice —
endGame has no idempotence guard, so the Result Reporter is invoked once
per call, not exactly once in total. -/
theorem c2_end_twice_counterexample :
    (endGame tgMid).reporterCalls = [5] ∧
    (endGame (endGame tgMid)).reporterCalls = [5, 5] := by decide

/-- C2 amended: endGame is not idempotent: every call on a target session
with a positive score and a signed-in user cancels the interval timers,
clears the targets and submits the (unchanged) final score once more, so
two calls submit it twice. -/
theorem c2_end_twice_amended : ∀ s : GameState,
    s.challengeType = Mode.target → s.userPresent = true → 0 < s.score →
    (endGame s).reporterCalls = s.reporterCalls ++ [s.score] ∧
    (endGame (endGame s)).reporterCalls = s.reporterCalls ++ [s.score, s.score] := by
  intro s hc hu hs
  constructor
  · simp [endGame, clearTimerRef, clearSpawnRef, hc, hu, hs]
  · simp [endGame, clearTimerRef, clearSpawnRef, hc, hu, hs]

/-- C2 witness: the amended statement at the mid-game target session. -/
theorem c2_end_twice_witness :
    (endGame tgMid).reporterCalls = tgMid.reporterCalls ++ [tgMid.score] ∧
    (endGame (endGame tgMid)).reporterCalls
      = tgMid.reporterCalls ++ [tgMid.score, tgMid.score] :=
  c2_end_twice_amended tgMid rfl rfl (by decide)

/-- C10 confirmed: every color-session terminal path (completion, early
tap, miss) with a signed-in user and a positive accumulated score submits
floor(colorScore / COLOR_SCORE_XP_DIVISOR) to updateUserStats, whose XP
gain is that quotient times 10 — i.e. floor(colorScore / 10) * 10 — while
a target session submits its raw score unchanged. -/
theorem c10_xp_normalization : ∀ s s2 : GameState,
    s.userPresent = true → 0 < s.colorScore →
    s2.challengeType = Mode.target → s2.userPresent = true → 0 < s2.score →
    ((endColorGame s).reporterCalls
        = s.reporterCalls ++ [s.colorScore / COLOR_SCORE_XP_DIVISOR] ∧
      (handleColorFail s).reporterCalls
        = s.reporterCalls ++ [s.colorScore / COLOR_SCORE_XP_DIVISOR] ∧
      (handleColorMiss s).reporterCalls
        = s.reporterCalls ++ [s.colorScore / COLOR_SCORE_XP_DIVISOR] ∧
      xpGained (s.colorScore / COLOR_SCORE_XP_DIVISOR) = s.colorScore / 10 * 10) ∧
    (endGame s2).reporterCalls = s2.reporterCalls ++ [s2.score] := by
  intro s s2 hu hs hc2 hu2 hs2
  refine ⟨⟨?_, ?_, ?_, ?_⟩, ?_⟩
  · simp [endColorGame, clearWaitRef, clearColorRef, hu, hs]
  · simp [handleColorFail, clearWaitRef, clearColorRef, hu, hs]
  · simp [handleColorMiss, clearWaitRef, hu, hs]
  · simp [xpGained, XP_PER_SCORE_POINT, COLOR_SCORE_XP_DIVISOR]
  · simp [endGame, clearTimerRef, clearSpawnRef, hc2, hu2, hs2]

/-- C10 witness: the confirmed statement at the scored color session
(123 points, submitting 12) and the mid-game target session (5 points). -/
theorem c10_xp_normalization_witness :
    ((endColorGame crScored).reporterCalls
        = crScored.reporterCalls ++ [crScored.colorScore / COLOR_SCORE_XP_DIVISOR] ∧
      (handleColorFail crScored).reporterCalls
        = crScored.reporterCalls ++ [crScored.colorScore / COLOR_SCORE_XP_DIVISOR] ∧
      (handleColorMiss crScored).reporterCalls
        = crScored.reporterCalls ++ [crScored.colorScore / COLOR_SCORE_XP_DIVISOR] ∧
      xpGained (crScored.colorScore / COLOR_SCORE_XP_DIVISOR)
        = crScored.colorScore / 10 * 10) ∧
    (endGame tgMid).reporterCalls = tgMid.reporterCalls ++ [tgMid.score] :=
  c10_xp_normalization crScored tgMid rfl (by decide) rfl rfl (by decide)

/-- What handleColorFail does to the fields the early-tap claim observes,
in either reporting branch. -/
lemma handleColorFail_fields (s : GameState) :
    (handleColorFail s).isPlaying = false ∧
    (handleColorFail s).gameStarted = false ∧
    (handleColorFail s).outcomes = s.outcomes ++ [Outcome.earlyTap] ∧
    (handleColorFail s).roundsCompleted = s.roundsCompleted ∧
    (handleColorFail s).pending
      = clearHandle s.colorTimerRef (clearHandle s.waitTimerRef s.pending) := by
  unfold handleColorFail
  simp only [clearWaitRef, clearColorRef]
  split <;> simp

/-- C6 confirmed: in color mode a tap while the circle is still red (the
Waiting phase) ends the whole session at once — isPlaying and gameStarted
drop, the early-tap failure alert is recorded, roundsCompleted is not
incremented — and the pending arm timer is cancelled (given that the arm
timer pending is the one waitTimerRef holds, which clearing the ref then
removes). -/
theorem c6_early_tap_ends_session : ∀ s : GameState,
    s.challengeType = Mode.color → s.circleColor = CircleColor.red →
    (∀ tm ∈ s.pending, tm.kind = TimerKind.arm → s.waitTimerRef = some tm.tid) →
    (handleColorPress s).isPlaying = false ∧
    (handleColorPress s).gameStarted = false ∧
    (handleColorPress s).outcomes = s.outcomes ++ [Outcome.earlyTap] ∧
    (handleColorPress s).roundsCompleted = s.roundsCompleted ∧
    ∀ tm ∈ (handleColorPress s).pending, tm.kind ≠ TimerKind.arm := by
  intro s _ hred harm
  have hpress : handleColorPress s = handleColorFail s := by
    simp [handleColorPress, hred]
  rw [hpress]
  have hfields := handleColorFail_fields s
  refine ⟨hfields.1, hfields.2.1, hfields.2.2.1, hfields.2.2.2.1, ?_⟩
  intro tm htm hk
  rw [hfields.2.2.2.2] at htm
  rcases mem_clearHandle.mp htm with ⟨htm2, _⟩
  rcases mem_clearHandle.mp htm2 with ⟨htm3, hwait⟩
  exact hwait (harm tm htm3 hk)

/-- C6 witness: the confirmed statement at the freshly started color
session, whose only pending timer is the tracked arm timer. -/
theorem c6_early_tap_witness :
    (handleColorPress crStarted).isPlaying = false ∧
    (handleColorPress crStarted).gameStarted = false ∧
    (handleColorPress crStarted).outcomes = crStarted.outcomes ++ [Outcome.earlyTap] ∧
    (handleColorPress crStarted).roundsCompleted = crStarted.roundsCompleted :=
  ⟨(c6_early_tap_ends_session crStarted (by decide) (by decide) (by decide)).1,
   (c6_early_tap_ends_session crStarted (by decide) (by decide) (by decide)).2.1,
   (c6_early_tap_ends_session crStarted (by decide) (by decide) (by decide)).2.2.1,
   (c6_early_tap_ends_session crStarted (by decide) (by decide) (by decide)).2.2.2.1⟩

/-- What a tap on the green circle does when it completes the round cap:
the endDelay setTimeout is scheduled and roundsCompleted is left alone
(the limit branch of handleColorPress never writes it). -/
lemma handleColorPress_green_last (s : GameState) (g : Nat)
    (hgr : s.circleColor = CircleColor.green) (hgt : s.greenTime = some g)
    (hrc : MAX_COLOR_ROUNDS ≤ s.roundsCompleted + 1) :
    (handleColorPress s).roundsCompleted = s.roundsCompleted ∧
    (handleColorPress s).pending
      = clearHandle s.colorTimerRef s.pending
          ++ [⟨s.nextTid, TimerKind.endDelay, s.now + 1500, none⟩] ∧
    (handleColorPress s).userPresent = s.userPresent ∧
    (handleColorPress s).colorScore = s.colorScore + calculateReactionScore (s.now - g) ∧
    (handleColorPress s).outcomes = s.outcomes := by
  unfold handleColorPress
  rw [if_neg (by rw [hgr]; simp), hgt]
  simp [clearColorRef, schedule, hrc]

/-- What endColorGame does in its reporting branch to the fields the
round-cap claim observes. -/
lemma endColorGame_fields (s : GameState) (hu : s.userPresent = true)
    (hs : 0 < s.colorScore) :
    (endColorGame s).roundsCompleted = s.roundsCompleted ∧
    (endColorGame s).outcomes = s.outcomes ++ [Outcome.colorComplete] := by
  unfold endColorGame
  simp only [clearWaitRef, clearColorRef]
  rw [if_pos ⟨hu, hs⟩]
  simp

set_option maxRecDepth 8000 in
/-- C7 counterexample: the full ten-round run with a signed-in user ends
the session with the completion result (and submits the normalized score),
yet the terminal roundsCompleted is 9, not MAX_COLOR_ROUNDS = 10 — the
tenth round is never written to roundsCompleted (the completion alert
hardcodes 10/10). -/
theorem c7_round_cap_counterexample :
    crFinal.outcomes = [Outcome.colorComplete] ∧
    crFinal.isPlaying = false ∧
    crFinal.reporterCalls = [100] ∧
    crFinal.roundsCompleted = 9 ∧
    crFinal.roundsCompleted ≠ MAX_COLOR_ROUNDS := by decide

/-- C7 amended: a tap on the green circle of the tenth round schedules the
end-of-game delay without incrementing roundsCompleted, and the session
then ends with the completion result with roundsCompleted still equal to
MAX_COLOR_ROUNDS - 1 = 9 at the terminal state. -/
theorem c7_round_cap_amended : ∀ (s : GameState) (g : Nat),
    s.challengeType = Mode.color →
    s.circleColor = CircleColor.green → s.greenTime = some g →
    s.roundsCompleted = MAX_COLOR_ROUNDS - 1 →
    s.userPresent = true → 0 < s.colorScore →
    (handleColorPress s).roundsCompleted = MAX_COLOR_ROUNDS - 1 ∧
    (∃ tm ∈ (handleColorPress s).pending, tm.kind = TimerKind.endDelay) ∧
    (endColorGame (handleColorPress s)).roundsCompleted = MAX_COLOR_ROUNDS - 1 ∧
    (endColorGame (handleColorPress s)).outcomes
      = (handleColorPress s).outcomes ++ [Outcome.colorComplete] := by
  intro s g _ hgr hgt h9 hu hs
  have hrc : MAX_COLOR_ROUNDS ≤ s.roundsCompleted + 1 := by
    rw [h9]; decide
  have hp := handleColorPress_green_last s g hgr hgt hrc
  have hu2 : (handleColorPress s).userPresent = true := by rw [hp.2.2.1, hu]
  have hs2 : 0 < (handleColorPress s).colorScore := by
    rw [hp.2.2.2.1]
    exact Nat.lt_of_lt_of_le hs (Nat.le_add_right _ _)
  have he := endColorGame_fields (handleColorPress s) hu2 hs2
  refine ⟨by rw [hp.1, h9], ?_, by rw [he.1, hp.1, h9], he.2⟩
  refine ⟨⟨s.nextTid, TimerKind.endDelay, s.now + 1500, none⟩, ?_, rfl⟩
  rw [hp.2.1]
  exact List.mem_append_right _ (List.mem_singleton.mpr rfl)

/-- C7 witness: the amended statement at the tenth-round green-circle
session with 900 points. -/
theorem c7_round_cap_witness :
    (handleColorPress crNinth).roundsCompleted = MAX_COLOR_ROUNDS - 1 ∧
    (endColorGame (handleColorPress crNinth)).roundsCompleted = MAX_COLOR_ROUNDS - 1 ∧
    (endColorGame (handleColorPress crNinth)).outcomes
      = (handleColorPress crNinth).outcomes ++ [Outcome.colorComplete] :=
  ⟨(c7_round_cap_amended crNinth 1000 (by decide) (by decide) (by decide)
      (by decide) (by decide) (by decide)).1,
   (c7_round_cap_amended crNinth 1000 (by decide) (by decide) (by decide)
      (by decide) (by decide) (by decide)).2.2.1,
   (c7_round_cap_amended crNinth 1000 (by decide) (by decide) (by decide)
      (by decide) (by decide) (by decide)).2.2.2⟩

-- Behaviour of the effect re-runs when the session is paused or stopped:
-- each one only runs its cleanup (its re-arm condition is false).

lemma reconcileCountdown_off_eq (t : GameState)
    (h : t.isPlaying = false ∨ t.isPaused = true) :
    reconcileCountdown t = clearTimerRef t := by
  unfold reconcileCountdown
  rw [if_neg (by rcases h with h | h <;> simp [clearTimerRef, h])]

lemma reconcileSpawn_off_eq (t : GameState)
    (h : t.isPlaying = false ∨ t.isPaused = true) :
    reconcileSpawn t = clearSpawnRef t := by
  unfold reconcileSpawn
  rw [if_neg (by rcases h with h | h <;> simp [clearSpawnRef, h])]

lemma reconcileColor_off_cleanup (old t : GameState)
    (h : t.isPlaying = false ∨ t.isPaused = true)
    (hcl : old.isPlaying = false ∨ old.isPaused = true) :
    reconcileColor old t
      = { clearColorRef (clearWaitRef t) with roundInProgress := false } := by
  unfold reconcileColor
  dsimp only
  rw [if_pos hcl,
    if_neg (by rcases h with h | h <;> simp [clearWaitRef, clearColorRef, h])]

lemma reconcileColor_off_skip (old t : GameState)
    (h : t.isPlaying = false ∨ t.isPaused = true)
    (hcl : ¬(old.isPlaying = false ∨ old.isPaused = true)) :
    reconcileColor old t = t := by
  unfold reconcileColor
  dsimp only
  rw [if_neg hcl, if_neg (by rcases h with h | h <;> simp [h])]

-- Clearing a ref that is already null changes nothing.

lemma clearTimerRef_inert (t : GameState) (h : t.timerRef = none) :
    clearTimerRef t = t := by
  cases t
  simp_all [clearTimerRef, clearHandle]

lemma clearSpawnRef_inert (t : GameState) (h : t.targetSpawnTimerRef = none) :
    clearSpawnRef t = t := by
  cases t
  simp_all [clearSpawnRef, clearHandle]

lemma reconcileCountdown_inert (t : GameState) (h1 : t.timerRef = none)
    (h5 : t.isPlaying = false) : reconcileCountdown t = t := by
  rw [reconcileCountdown_off_eq t (Or.inl h5), clearTimerRef_inert t h1]

lemma reconcileSpawn_inert (t : GameState) (h2 : t.targetSpawnTimerRef = none)
    (h5 : t.isPlaying = false) : reconcileSpawn t = t := by
  rw [reconcileSpawn_off_eq t (Or.inl h5), clearSpawnRef_inert t h2]

lemma reconcileColor_inert_pending (old t : GameState) (h5 : t.isPlaying = false)
    (h3 : t.waitTimerRef = none) (h4 : t.colorTimerRef = none) :
    (reconcileColor old t).pending = t.pending ∧
    (reconcileColor old t).timerRef = t.timerRef ∧
    (reconcileColor old t).targetSpawnTimerRef = t.targetSpawnTimerRef ∧
    (reconcileColor old t).waitTimerRef = none ∧
    (reconcileColor old t).colorTimerRef = none ∧
    (reconcileColor old t).isPlaying = false := by
  by_cases hcl : old.isPlaying = false ∨ old.isPaused = true
  · rw [reconcileColor_off_cleanup old t (Or.inl h5) hcl]
    simp [clearWaitRef, clearColorRef, clearHandle, h3, h4, h5]
  · rw [reconcileColor_off_skip old t (Or.inl h5) hcl]
    simp [h3, h4, h5]

/-- With all refs already cleared and the game stopped, the effect re-runs
can neither cancel nor create any timer. -/
lemma sync_inert (old t : GameState) (h1 : t.timerRef = none)
    (h2 : t.targetSpawnTimerRef = none) (h3 : t.waitTimerRef = none)
    (h4 : t.colorTimerRef = none) (h5 : t.isPlaying = false) :
    (sync old t).pending = t.pending ∧
    (sync old t).timerRef = none ∧ (sync old t).targetSpawnTimerRef = none ∧
    (sync old t).waitTimerRef = none ∧ (sync old t).colorTimerRef = none ∧
    (sync old t).isPlaying = false := by
  simp only [sync]
  rw [reconcileCountdown_inert t h1 h5, ite_self, reconcileSpawn_inert t h2 h5, ite_self]
  split
  · have hc := reconcileColor_inert_pending old t h5 h3 h4
    exact ⟨hc.1, hc.2.1.trans h1, hc.2.2.1.trans h2, hc.2.2.2.1,
      hc.2.2.2.2.1, hc.2.2.2.2.2⟩
  · exact ⟨rfl, h1, h2, h3, h4, h5⟩

lemma unmount_pending_inert (t : GameState) (h1 : t.timerRef = none)
    (h2 : t.targetSpawnTimerRef = none) (h3 : t.waitTimerRef = none)
    (h4 : t.colorTimerRef = none) : (unmount t).pending = t.pending := by
  unfold unmount
  dsimp only
  rw [clearTimerRef_inert t h1, clearSpawnRef_inert t h2]
  split
  · simp [clearWaitRef, clearColorRef, clearHandle, h3, h4]
  · rfl

lemma leaveGame_refs (s : GameState) :
    (leaveGame s).timerRef = none ∧ (leaveGame s).targetSpawnTimerRef = none ∧
    (leaveGame s).waitTimerRef = none ∧ (leaveGame s).colorTimerRef = none ∧
    (leaveGame s).isPlaying = false := by
  simp [leaveGame, clearTimerRef, clearSpawnRef, clearWaitRef, clearColorRef]

lemma leaveGame_pending_eq (s : GameState) :
    (leaveGame s).pending
      = clearHandle s.colorTimerRef (clearHandle s.waitTimerRef
          (clearHandle s.targetSpawnTimerRef (clearHandle s.timerRef s.pending))) := by
  simp [leaveGame, clearTimerRef, clearSpawnRef, clearWaitRef, clearColorRef]

/-- After the Leave branch clears all four refs, every timer a ref was
tracking is gone; with TrackedTids, only untracked setTimeouts survive. -/
lemma leaveGame_untracked (s : GameState) (h : TrackedTids s) :
    ∀ tm ∈ (leaveGame s).pending, isUntracked tm.kind = true := by
  intro tm htm
  rw [leaveGame_pending_eq] at htm
  rcases mem_clearHandle.mp htm with ⟨ha, hcol⟩
  rcases mem_clearHandle.mp ha with ⟨hb, hwait⟩
  rcases mem_clearHandle.mp hb with ⟨hc, hspawn⟩
  rcases mem_clearHandle.mp hc with ⟨h0, htimer⟩
  rcases h with ⟨hcd, hsp, harm, hmiss⟩
  cases hk : tm.kind with
  | countdown => exact absurd (hcd tm h0 hk) htimer
  | spawn => exact absurd (hsp tm h0 hk) hspawn
  | targetExpiry i => rfl
  | arm => exact absurd (harm tm h0 hk) hwait
  | miss => exact absurd (hmiss tm h0 hk) hcol
  | nextRound n => rfl
  | endDelay => rfl

/-- The teardown flow only cancels timers the refs still hold (all of
which the Leave branch already cancelled), so its pending set is exactly
the Leave branch's. -/
lemma teardown_pending_eq (s : GameState) :
    (teardown s).pending = (leaveGame s).pending := by
  have hr := leaveGame_refs s
  have hs := sync_inert s (leaveGame s) hr.1 hr.2.1 hr.2.2.1 hr.2.2.2.1 hr.2.2.2.2
  unfold teardown
  rw [unmount_pending_inert _ hs.2.1 hs.2.2.1 hs.2.2.2.1 hs.2.2.2.2.1, hs.1]

-- TrackedTids survives pausing: every clearing step either keeps a
-- tracked timer with its ref or removes both.

lemma trackedPaused_reconcileCountdown {u : GameState} (h : TrackedPaused u) :
    TrackedPaused (reconcileCountdown u) := by
  rcases h with ⟨ht, hp⟩
  rw [reconcileCountdown_off_eq u (Or.inr hp)]
  constructor
  · refine ⟨?_, ?_, ?_, ?_⟩ <;> intro tm htm hk <;>
      simp only [clearTimerRef] at htm ⊢ <;>
      rcases mem_clearHandle.mp htm with ⟨hm0, hne⟩
    · exact absurd (ht.1 tm hm0 hk) hne
    · exact ht.2.1 tm hm0 hk
    · exact ht.2.2.1 tm hm0 hk
    · exact ht.2.2.2 tm hm0 hk
  · simp [clearTimerRef, hp]

lemma trackedPaused_reconcileSpawn {u : GameState} (h : TrackedPaused u) :
    TrackedPaused (reconcileSpawn u) := by
  rcases h with ⟨ht, hp⟩
  rw [reconcileSpawn_off_eq u (Or.inr hp)]
  constructor
  · refine ⟨?_, ?_, ?_, ?_⟩ <;> intro tm htm hk <;>
      simp only [clearSpawnRef] at htm ⊢ <;>
      rcases mem_clearHandle.mp htm with ⟨hm0, hne⟩
    · exact ht.1 tm hm0 hk
    · exact absurd (ht.2.1 tm hm0 hk) hne
    · exact ht.2.2.1 tm hm0 hk
    · exact ht.2.2.2 tm hm0 hk
  · simp [clearSpawnRef, hp]

lemma trackedPaused_reconcileColor {old u : GameState} (h : TrackedPaused u) :
    TrackedPaused (reconcileColor old u) := by
  rcases h with ⟨ht, hp⟩
  by_cases hcl : old.isPlaying = false ∨ old.isPaused = true
  · rw [reconcileColor_off_cleanup old u (Or.inr hp) hcl]
    constructor
    · refine ⟨?_, ?_, ?_, ?_⟩ <;> intro tm htm hk <;>
        simp only [clearWaitRef, clearColorRef] at htm ⊢ <;>
        rcases mem_clearHandle.mp htm with ⟨htm1, hcne⟩ <;>
        rcases mem_clearHandle.mp htm1 with ⟨htm0, hwne⟩
      · exact ht.1 tm htm0 hk
      · exact ht.2.1 tm htm0 hk
      · exact absurd (ht.2.2.1 tm htm0 hk) hwne
      · exact absurd (ht.2.2.2 tm htm0 hk) hcne
    · simp [clearWaitRef, clearColorRef, hp]
  · rw [reconcileColor_off_skip old u (Or.inr hp) hcl]
    exact ⟨ht, hp⟩

lemma trackedPaused_ite {c : Prop} [Decidable c] {f : GameState → GameState}
    {u : GameState} (hf : TrackedPaused u → TrackedPaused (f u))
    (h : TrackedPaused u) : TrackedPaused (if c then f u else u) := by
  split
  · exact hf h
  · exact h

lemma pauseGame_trackedPaused (s : GameState) (h : TrackedTids s) :
    TrackedPaused (pauseGame s) := by
  unfold pauseGame
  dsimp only
  split
  · constructor
    · refine ⟨?_, ?_, ?_, ?_⟩ <;> intro tm htm hk <;>
        simp only [clearWaitRef, clearColorRef] at htm ⊢ <;>
        rcases mem_clearHandle.mp htm with ⟨htm1, hcne⟩ <;>
        rcases mem_clearHandle.mp htm1 with ⟨htm0, hwne⟩
      · exact h.1 tm htm0 hk
      · exact h.2.1 tm htm0 hk
      · exact absurd (h.2.2.1 tm htm0 hk) hwne
      · exact absurd (h.2.2.2 tm htm0 hk) hcne
    · simp [clearWaitRef, clearColorRef]
  · exact ⟨⟨h.1, h.2.1, h.2.2.1, h.2.2.2⟩, rfl⟩

lemma step_pause_trackedPaused (s : GameState) (h : TrackedTids s) :
    TrackedPaused (step s Event.pause) := by
  have h0 := pauseGame_trackedPaused s h
  simp only [step, applyEvent, sync]
  exact trackedPaused_ite (fun x => trackedPaused_reconcileColor x)
    (trackedPaused_ite (fun x => trackedPaused_reconcileSpawn x)
      (trackedPaused_ite (fun x => trackedPaused_reconcileCountdown x) h0))

-- An untracked pending timer survives the pause flow: pauseGame and the
-- effect cleanups only ever cancel the timers the refs hold.

lemma pendSurvives_reconcileCountdown {tm : Timer} {u : GameState}
    (h : PendSurvives tm u) : PendSurvives tm (reconcileCountdown u) := by
  rcases h with ⟨hp, hm, h1, h2, h3, h4⟩
  rw [reconcileCountdown_off_eq u (Or.inr hp)]
  refine ⟨?_, ?_, ?_, ?_, ?_, ?_⟩ <;> simp only [clearTimerRef]
  · exact hp
  · exact mem_clearHandle.mpr ⟨hm, h1⟩
  · simp
  · exact h2
  · exact h3
  · exact h4

lemma pendSurvives_reconcileSpawn {tm : Timer} {u : GameState}
    (h : PendSurvives tm u) : PendSurvives tm (reconcileSpawn u) := by
  rcases h with ⟨hp, hm, h1, h2, h3, h4⟩
  rw [reconcileSpawn_off_eq u (Or.inr hp)]
  refine ⟨?_, ?_, ?_, ?_, ?_, ?_⟩ <;> simp only [clearSpawnRef]
  · exact hp
  · exact mem_clearHandle.mpr ⟨hm, h2⟩
  · exact h1
  · simp
  · exact h3
  · exact h4

lemma pendSurvives_reconcileColor {old : GameState} {tm : Timer} {u : GameState}
    (h : PendSurvives tm u) : PendSurvives tm (reconcileColor old u) := by
  rcases h with ⟨hp, hm, h1, h2, h3, h4⟩
  by_cases hcl : old.isPlaying = false ∨ old.isPaused = true
  · rw [reconcileColor_off_cleanup old u (Or.inr hp) hcl]
    refine ⟨?_, ?_, ?_, ?_, ?_, ?_⟩ <;> simp only [clearWaitRef, clearColorRef]
    · exact hp
    · exact mem_clearHandle.mpr ⟨mem_clearHandle.mpr ⟨hm, h3⟩, h4⟩
    · exact h1
    · exact h2
    · simp
    · simp
  · rw [reconcileColor_off_skip old u (Or.inr hp) hcl]
    exact ⟨hp, hm, h1, h2, h3, h4⟩

lemma pendSurvives_ite {c : Prop} [Decidable c] {f : GameState → GameState}
    {tm : Timer} {u : GameState} (hf : PendSurvives tm u → PendSurvives tm (f u))
    (h : PendSurvives tm u) : PendSurvives tm (if c then f u else u) := by
  split
  · exact hf h
  · exact h

lemma pendSurvives_sync {old : GameState} {tm : Timer} {u : GameState}
    (h : PendSurvives tm u) : PendSurvives tm (sync old u) := by
  simp only [sync]
  exact pendSurvives_ite (fun x => pendSurvives_reconcileColor x)
    (pendSurvives_ite (fun x => pendSurvives_reconcileSpawn x)
      (pendSurvives_ite (fun x => pendSurvives_reconcileCountdown x) h))

/-- C1 counterexample: start a target session (one target spawns at once)
and immediately pause, then navigate away.  The target's 3-second removal
setTimeout — created by the session controller in spawnTarget — is still
live after the teardown (its handle was never stored in any ref, so
nothing can cancel it), and firing it still runs its callback; the
session does not leave zero live timers. -/
theorem c1_zero_timers_counterexample :
    tgGone.pending = [⟨2, TimerKind.targetExpiry 0, 3000, none⟩] ∧
    tgGone.pending ≠ [] ∧
    fireTimer tgGone 2 ≠ tgGone := by decide

/-- C1 amended: pause followed by teardown cancels every ref-tracked timer
(countdown, spawn, arm, miss) — given that each pending tracked timer is
the one its ref holds — but the untracked setTimeouts (per-target expiry,
round-advance and end-of-game delays) remain scheduled and fire
afterwards. -/
theorem c1_zero_timers_amended : ∀ s : GameState, TrackedTids s →
    ∀ tm ∈ (teardown (step s Event.pause)).pending, isUntracked tm.kind = true := by
  intro s hs tm htm
  rw [teardown_pending_eq] at htm
  exact leaveGame_untracked _ (step_pause_trackedPaused s hs).1 tm htm

/-- C1 witness: the amended statement applied to the freshly started
target session at its surviving expiry timer. -/
theorem c1_zero_timers_witness :
    isUntracked (TimerKind.targetExpiry 0) = true :=
  c1_zero_timers_amended tgStarted (by decide)
    ⟨2, TimerKind.targetExpiry 0, 3000, none⟩ (by decide)

/-- C8 counterexample: in the paused target session the first target's
removal timeout is still scheduled at its original absolute due time
(3000 ms after its spawn), and it fires while the session is still
paused, removing the live target — pausing neither suspends the expiry
timer nor preserves the target's remaining lifetime. -/
theorem c8_pause_suspend_counterexample :
    tgPaused.isPaused = true ∧
    tgPaused.targets = [⟨0, 0, 0⟩] ∧
    tgPaused.pending = [⟨2, TimerKind.targetExpiry 0, 3000, none⟩] ∧
    tgExpired.isPaused = true ∧
    tgExpired.targets = [] ∧
    tgExpired.now = 3000 := by decide

/-- C8 amended: pausing a target session leaves every pending target
expiry timeout scheduled unchanged (same handle, same absolute due time —
the pause duration counts toward the target's age), and when its callback
runs the target is removed even though the session is paused. -/
theorem c8_pause_expiry_amended : ∀ (s : GameState) (tm : Timer) (i : Nat),
    s.challengeType = Mode.target →
    tm ∈ s.pending → tm.kind = TimerKind.targetExpiry i →
    s.timerRef ≠ some tm.tid → s.targetSpawnTimerRef ≠ some tm.tid →
    s.waitTimerRef ≠ some tm.tid → s.colorTimerRef ≠ some tm.tid →
    tm ∈ (step s Event.pause).pending ∧
    (step s Event.pause).isPaused = true ∧
    ∀ t ∈ (fireCallback tm (step s Event.pause)).targets, t.id ≠ i := by
  intro s tm i hc hm hk h1 h2 h3 h4
  have hpause : applyEvent s Event.pause = { s with isPaused := true } := by
    simp [applyEvent, pauseGame, hc]
  have hstep : PendSurvives tm (step s Event.pause) := by
    unfold step
    rw [hpause]
    exact pendSurvives_sync ⟨rfl, hm, h1, h2, h3, h4⟩
  refine ⟨hstep.2.1, hstep.1, ?_⟩
  intro t ht
  rcases tm with ⟨tid, kind, due, rep⟩
  cases hk
  simp only [fireCallback] at ht
  have := (List.mem_filter.mp ht).2
  simpa using this

/-- C8 witness: the amended statement at the freshly started target
session and its expiry timer. -/
theorem c8_pause_expiry_witness :
    (⟨2, TimerKind.targetExpiry 0, 3000, none⟩ : Timer)
      ∈ (step tgStarted Event.pause).pending ∧
    (step tgStarted Event.pause).isPaused = true :=
  ⟨(c8_pause_expiry_amended tgStarted ⟨2, TimerKind.targetExpiry 0, 3000, none⟩ 0
      (by decide) (by decide) (by decide) (by decide) (by decide) (by decide)
      (by decide)).1,
   (c8_pause_expiry_amended tgStarted ⟨2, TimerKind.targetExpiry 0, 3000, none⟩ 0
      (by decide) (by decide) (by decide) (by decide) (by decide) (by decide)
      (by decide)).2.1⟩
